import Mathlib

/-!
Verification development for the moodplus wellness-journal repository.

The embedding models the analysis module (sentiment scoring, stress
classification, rule-based and generative suggestion engines) and the
persistence/save flow of the app module. Python floats are modelled as
exact rationals; decimal literals such as 0.5, 0.3, 0.9 denote the exact
rational the source writes. External collaborators (the VADER analyzer,
the text-generation pipeline, the database commit outcome) are passed in
as explicit oracle parameters, mirroring the narrow functional contracts
the program consumes them through.
-/

namespace MoodPlus

/-- Python ASCII whitespace characters recognised by `str.strip()`:
space, tab, newline, carriage return, vertical tab, form feed.
(Non-ASCII Unicode whitespace is not used anywhere in this development.) -/
def pyIsSpace (c : Char) : Bool :=
  c.toNat = 32 ∨ c.toNat = 9 ∨ c.toNat = 10 ∨ c.toNat = 13 ∨ c.toNat = 11 ∨ c.toNat = 12

/-- Python `str.strip()`: remove leading and trailing whitespace. -/
def pyStrip (s : String) : String :=
  ⟨((s.data.dropWhile pyIsSpace).reverse.dropWhile pyIsSpace).reverse⟩

/-- Helper for `pySplitLines`: walk the characters, cutting at each newline. -/
def pySplitLinesAux : List Char → List Char → List String
  | [], acc => [⟨acc.reverse⟩]
  | c :: rest, acc =>
    if c = '\n' then ⟨acc.reverse⟩ :: pySplitLinesAux rest []
    else pySplitLinesAux rest (c :: acc)

/-- Python `str.split('\n')`: split at every newline, keeping empty parts
(so the empty string yields `[""]` and a trailing newline yields a trailing
empty part). -/
def pySplitLines (s : String) : List String := pySplitLinesAux s.data []

/-- Result type of `analyze_sentiment` in `analysis.py`: the function returns
either the scalar compound score (non-empty text) or a full VADER-style
score mapping with keys neg/neu/pos/compound (the `if not text` branch). -/
inductive SentimentResult where
  | scalar (compound : ℚ)
  | scores (neg neu pos compound : ℚ)
  deriving DecidableEq

/-- `analyze_sentiment` from `analysis.py` (lines 17-34). The external VADER
analyzer (`analyzer.polarity_scores(text)['compound']`) is the oracle
parameter `vader`. For falsy (empty) text the source returns the literal
dict of neutral scores; otherwise it returns the scalar compound score. -/
def analyze_sentiment (vader : String → ℚ) (text : String) : SentimentResult :=
  if text = "" then SentimentResult.scores 0 1 0 0
  else SentimentResult.scalar (vader text)

/-- `classify_stress_level` from `analysis.py` (lines 37-57), translated
branch for branch: note the first guard uses a strict `<` on the score. -/
def classify_stress_level (compound_score : ℚ) (mood_rating : ℤ) : String :=
  if compound_score < -0.5 ∨ mood_rating ≤ 3 then "High"
  else if compound_score < 0 ∨ mood_rating ≤ 5 then "Medium"
  else "Low"

/-- One row of the history DataFrame produced by `get_user_entries_df`:
the columns consumed by the suggestion engine. -/
structure EntryRow where
  mood : ℤ
  vader : ℚ
  stress : String
  deriving DecidableEq

/-- pandas `Series.mean` over rationals: sum divided by length. -/
def listMean (l : List ℚ) : ℚ := l.sum / l.length

/-- The current-entry feedback message chosen by `generate_suggestions`
(section 1 of the function, lines 68-76 of `analysis.py`). -/
def current_suggestion (compound_score : ℚ) (stress_level : String) : String :=
  if stress_level = "High" then
    "🛑 **Immediate Focus: Stress Reduction.** Try taking 10 deep breaths, stepping away from your task for 5 minutes, or listening to a calming playlist."
  else if compound_score < 0 ∧ stress_level = "Medium" then
    "⚖️ **Mood Check-in:** Your entry shows a negative tone. Consider reaching out to a friend or engaging in a hobby you enjoy to shift your focus."
  else if compound_score > 0.5 then
    "🎉 **Positive Reinforcement:** Keep doing what you're doing! Note down specifically why today felt good so you can replicate it."
  else
    "🧘 **Maintain Balance:** Focus on consistency today. Ensure you are staying hydrated and getting sufficient rest."

/-- The Decline trend-alert message (line 90 of `analysis.py`). -/
def declineMsg : String :=
  "📉 **Trend Alert:** Your mood rating over the last week has been lower than your average. Prioritize sleep and outdoor time this week."

/-- The ChronicStress trend-alert message (line 95 of `analysis.py`). -/
def chronicMsg : String :=
  "🚨 **Long-Term Pattern:** A high percentage of your entries indicate high stress. Consider reviewing your schedule or seeking professional help if the pattern continues."

/-- The historical-trend feedback messages appended by `generate_suggestions`
(section 2, lines 78-95 of `analysis.py`): guarded by a non-empty history of
at least 7 entries; `tail(7)` is the last seven rows.
(`recent_vader_avg` is computed in the source but never used.) -/
def trend_suggestions (history_df : List EntryRow) : List String :=
  if history_df ≠ [] ∧ 7 ≤ history_df.length then
    let recent_df := history_df.drop (history_df.length - 7)
    let recent_mood_avg := listMean (recent_df.map fun r => (r.mood : ℚ))
    let overall_mood_avg := listMean (history_df.map fun r => (r.mood : ℚ))
    let high_stress_count := (history_df.filter fun r => r.stress == "High").length
    (if recent_mood_avg < overall_mood_avg * 0.9 then [declineMsg] else []) ++
    (if (high_stress_count : ℚ) > (history_df.length : ℚ) * 0.3 then [chronicMsg] else [])
  else []

/-- The `suggestions` list built by `generate_suggestions` (lines 60-96 of
`analysis.py`) immediately before the final `return list(set(suggestions))`:
the single current-entry message followed by the trend alerts in emission
order (Decline before ChronicStress). -/
def generate_suggestions_pre (compound_score : ℚ) (stress_level : String)
    (history_df : List EntryRow) : List String :=
  current_suggestion compound_score stress_level :: trend_suggestions history_df

/-- Semantics of Python `list(set(xs))` for strings: the result is duplicate
free and has exactly the elements of `xs`; its order is unspecified (set
iteration order depends on string hashing). -/
def pySetList (out pre : List String) : Prop :=
  out.Nodup ∧ (∀ s ∈ out, s ∈ pre) ∧ (∀ s ∈ pre, s ∈ out)

instance (out pre : List String) : Decidable (pySetList out pre) := by
  unfold pySetList
  infer_instance

/-- `generate_suggestions` returns `list(set(suggestions))` (line 98 of
`analysis.py`): `out` is a possible return value for the given inputs. -/
def generate_suggestions_result (compound_score : ℚ) (stress_level : String)
    (history_df : List EntryRow) (out : List String) : Prop :=
  pySetList out (generate_suggestions_pre compound_score stress_level history_df)

instance (c : ℚ) (l : String) (h : List EntryRow) (out : List String) :
    Decidable (generate_suggestions_result c l h out) := by
  unfold generate_suggestions_result
  infer_instance

/-- Python exceptions that the modelled code can raise. -/
inductive PyErr where
  | nameError (missing : String)
  | typeError
  deriving DecidableEq

/-- `generate_suggestions_with_model` from `analysis.py` (lines 105-153).
The external text-generation call — `generator(prompt, ...)` followed by
`response[0]['generated_text'].replace(prompt, '')` — is the oracle
`generate`, a function of exactly the internal data embedded in the prompt
(score, stress level, raw text, history); `Except.error` models the try
block raising. The final `.strip()` of the source is kept explicit. On
success the source filters the advice lines by `line.strip() and
len(line) > 5`. On failure the except handler calls
`generate_suggestions_rule_based`, a name defined nowhere in the module,
so the handler itself raises `NameError`, which propagates to the caller. -/
def generate_suggestions_with_model
    (generate : ℚ → String → String → List EntryRow → Except Unit String)
    (compound_score : ℚ) (stress_level : String) (raw_text : String)
    (history_df : List EntryRow) : Except PyErr (List String) :=
  match generate compound_score stress_level raw_text history_df with
  | Except.ok generated =>
      let advice_text := pyStrip generated
      Except.ok ((pySplitLines advice_text).filter fun line =>
        decide (pyStrip line ≠ "" ∧ 5 < line.length))
  | Except.error _ => Except.error (PyErr.nameError "generate_suggestions_rule_based")

/-- Follows the spec's words for the claimed line-parsing heuristic of the
generative path, for comparison with the source's filter: keep non-empty
lines whose first non-space character is not alphanumeric; if none
qualifies, keep every non-empty line instead. -/
def specLineFilter (advice_text : String) : List String :=
  let ls := pySplitLines advice_text
  let nonEmpty := ls.filter fun l => decide (pyStrip l ≠ "")
  let kept := nonEmpty.filter fun l =>
    match (l.data.dropWhile pyIsSpace).head? with
    | some c => !c.isAlphanum
    | none => false
  if kept = [] then nonEmpty else kept

/-- One persisted `JournalEntry` row (`database.py`, lines 31-56). -/
structure StoredEntry where
  user_id : ℤ
  entry_date : ℤ
  raw_text : String
  mood_rating : ℤ
  vader_compound_score : ℚ
  ml_stress_level : String
  deriving DecidableEq

/-- Stable insertion of an entry into a date-sorted list (entries with the
same date keep their relative order). -/
def insert_by_date (e : StoredEntry) : List StoredEntry → List StoredEntry
  | [] => [e]
  | f :: r => if e.entry_date < f.entry_date then e :: f :: r else f :: insert_by_date e r

/-- Sort a list of entries ascending by date (models the store read's
`order_by(JournalEntry.entry_date)`). -/
def sort_by_date : List StoredEntry → List StoredEntry
  | [] => []
  | e :: r => insert_by_date e (sort_by_date r)

/-- `get_user_entries_df` from `app.py` (lines 89-118): the user's entries,
ordered by date, projected to the DataFrame columns the engine consumes. -/
def get_user_entries_df (session : List StoredEntry) (user_id : ℤ) : List EntryRow :=
  (sort_by_date (session.filter fun e => e.user_id == user_id)).map fun e =>
    ⟨e.mood_rating, e.vader_compound_score, e.ml_stress_level⟩

/-- `save_journal_entry` from `app.py` (lines 54-82): add the entry and
commit inside try; on any store failure (duplicate-date conflict,
connectivity loss — modelled by the oracle `commitOk`) roll the session
back and return `False`; return `True` after a successful commit. The
result pairs the returned boolean with the session's entry set afterwards. -/
def save_journal_entry (commitOk : Bool) (session : List StoredEntry)
    (e : StoredEntry) : Bool × List StoredEntry :=
  if commitOk then (true, session ++ [e]) else (false, session)

/-- The submitted-entry branch of `run_app` in `app.py` (lines 241-286),
step for step: guard on blank text (`none`: only a warning is shown), then
sentiment analysis, stress classification, the history read
(`history_df_before_save`, step 3), the suggestion call (step 4), and only
then the save (step 5). A dict escaping `analyze_sentiment` would raise a
`TypeError` in the numeric comparison inside `classify_stress_level`; that
branch is unreachable under the non-blank guard. If the suggestion call
raises, the exception propagates and the entry is never saved. -/
def run_app_submit (vader : String → ℚ)
    (generate : ℚ → String → String → List EntryRow → Except Unit String)
    (commitOk : Bool) (store : List StoredEntry) (user_id : ℤ) (entry_date : ℤ)
    (journal_text : String) (mood_rating : ℤ) :
    Option (Except PyErr (List String) × Bool × List StoredEntry) :=
  if pyStrip journal_text = "" then none
  else
    match analyze_sentiment vader journal_text with
    | SentimentResult.scores _ _ _ _ => some (Except.error PyErr.typeError, false, store)
    | SentimentResult.scalar compound_score =>
      let stress_level := classify_stress_level compound_score mood_rating
      let history_df_before_save := get_user_entries_df store user_id
      match generate_suggestions_with_model generate compound_score stress_level
          journal_text history_df_before_save with
      | Except.error e => some (Except.error e, false, store)
      | Except.ok suggestions =>
        let r := save_journal_entry commitOk store
          ⟨user_id, entry_date, journal_text, mood_rating, compound_score, stress_level⟩
        some (Except.ok suggestions, r.1, r.2)

/-- A VADER oracle that scores every text as neutral, for concrete runs. -/
def vaderZero : String → ℚ := fun _ => 0

/-- A generation oracle whose call always raises. -/
def genFail : ℚ → String → String → List EntryRow → Except Unit String :=
  fun _ _ _ _ => Except.error ()

/-- A generation oracle that always returns the empty string. -/
def genEmpty : ℚ → String → String → List EntryRow → Except Unit String :=
  fun _ _ _ _ => Except.ok ""

/-- A generation oracle that always returns the single short bulleted line
used as a concrete probe of the line filter. -/
def genStar : ℚ → String → String → List EntryRow → Except Unit String :=
  fun _ _ _ _ => Except.ok "* hi"

/-- Ten history rows all classified High (mood 5, neutral sentiment). -/
def hist10High : List EntryRow :=
  [⟨5, 0, "High"⟩, ⟨5, 0, "High"⟩, ⟨5, 0, "High"⟩, ⟨5, 0, "High"⟩, ⟨5, 0, "High"⟩,
   ⟨5, 0, "High"⟩, ⟨5, 0, "High"⟩, ⟨5, 0, "High"⟩, ⟨5, 0, "High"⟩, ⟨5, 0, "High"⟩]

/-- Ten history rows of which exactly 4 are classified High. -/
def hist4of10 : List EntryRow :=
  [⟨5, 0, "High"⟩, ⟨5, 0, "High"⟩, ⟨5, 0, "High"⟩, ⟨5, 0, "High"⟩, ⟨5, 0, "Low"⟩,
   ⟨5, 0, "Low"⟩, ⟨5, 0, "Low"⟩, ⟨5, 0, "Low"⟩, ⟨5, 0, "Low"⟩, ⟨5, 0, "Low"⟩]

/-- Ten history rows of which exactly 3 are classified High. -/
def hist3of10 : List EntryRow :=
  [⟨5, 0, "High"⟩, ⟨5, 0, "High"⟩, ⟨5, 0, "High"⟩, ⟨5, 0, "Low"⟩, ⟨5, 0, "Low"⟩,
   ⟨5, 0, "Low"⟩, ⟨5, 0, "Low"⟩, ⟨5, 0, "Low"⟩, ⟨5, 0, "Low"⟩, ⟨5, 0, "Low"⟩]

/-- A sample stored entry for concrete runs of the save flow. -/
def sampleEntry : StoredEntry := ⟨1, 0, "hi", 5, 0, "Low"⟩

/-- Helper: the High branch fires exactly on its guard. -/
lemma classify_eq_high_iff (s : ℚ) (m : ℤ) :
    classify_stress_level s m = "High" ↔ (s < -0.5 ∨ m ≤ 3) := by
  unfold classify_stress_level
  split_ifs with h1 h2
  · exact iff_of_true rfl h1
  · exact iff_of_false (by decide) h1
  · exact iff_of_false (by decide) h1

/-- Helper: the Medium branch fires exactly when High misses and its own
guard holds. -/
lemma classify_eq_medium_iff (s : ℚ) (m : ℤ) :
    classify_stress_level s m = "Medium" ↔ ((-0.5 ≤ s ∧ 3 < m) ∧ (s < 0 ∨ m ≤ 5)) := by
  unfold classify_stress_level
  split_ifs with h1 h2
  · refine iff_of_false (by decide) fun hc => ?_
    rcases h1 with h | h
    · exact absurd hc.1.1 (not_le.mpr h)
    · exact absurd hc.1.2 (not_lt.mpr h)
  · push_neg at h1
    exact iff_of_true rfl ⟨h1, h2⟩
  · exact iff_of_false (by decide) fun hc => h2 hc.2

/-- Helper: the Low branch fires exactly when the score is non-negative and
the mood exceeds 5. -/
lemma classify_eq_low_iff (s : ℚ) (m : ℤ) :
    classify_stress_level s m = "Low" ↔ (0 ≤ s ∧ 5 < m) := by
  unfold classify_stress_level
  split_ifs with h1 h2
  · refine iff_of_false (by decide) fun hc => ?_
    rcases h1 with h | h
    · exact absurd hc.1 (not_le.mpr (by linarith))
    · exact absurd hc.2 (not_lt.mpr (by omega))
  · refine iff_of_false (by decide) fun hc => ?_
    rcases h2 with h | h
    · exact absurd hc.1 (not_le.mpr h)
    · exact absurd hc.2 (not_lt.mpr h)
  · push_neg at h1 h2
    exact iff_of_true rfl ⟨h2.1, h2.2⟩

/-- C1 counterexample: on the boundary input score = -0.5, mood = 10 the
classifier does not return High (the source guard is the strict
`compound_score < -0.5`), contradicting the claimed `score <= -0.5` branch. -/
theorem classify_boundary_cex : classify_stress_level (-0.5) 10 ≠ "High" := by
  rw [Ne, classify_eq_high_iff]
  norm_num

/-- C1 (amended): the classifier returns High exactly when score < -0.5
(strictly) or mood <= 3; Medium exactly when High misses and score < 0.0 or
mood <= 5; Low otherwise (non-negative score and mood above 5) — the first
matching branch wins. On the boundaries, (score = -0.5, mood = 10) yields
Medium (it falls through to the score < 0 branch), (score = -0.49,
mood = 10) yields Medium, and (score = 0.1, mood = 6) yields Low. -/
theorem classify_stress_level_branches : ∀ (s : ℚ) (m : ℤ),
    (classify_stress_level s m = "High" ↔ (s < -0.5 ∨ m ≤ 3)) ∧
    (classify_stress_level s m = "Medium" ↔ ((-0.5 ≤ s ∧ 3 < m) ∧ (s < 0 ∨ m ≤ 5))) ∧
    (classify_stress_level s m = "Low" ↔ (0 ≤ s ∧ 5 < m)) ∧
    classify_stress_level (-0.5) 10 = "Medium" ∧
    classify_stress_level (-0.49) 10 = "Medium" ∧
    classify_stress_level 0.1 6 = "Low" :=
  fun s m =>
    ⟨classify_eq_high_iff s m, classify_eq_medium_iff s m, classify_eq_low_iff s m,
     by rw [classify_eq_medium_iff]; norm_num,
     by rw [classify_eq_medium_iff]; norm_num,
     by rw [classify_eq_low_iff]; norm_num⟩

/-- C10: the classifier is total beyond its documented domain — for every
rational score and every integer mood it returns one of exactly the three
labels; mood 0 yields High regardless of score, and mood 11 yields Low
exactly when the score is non-negative. -/
theorem classify_stress_level_total : ∀ (s : ℚ) (m : ℤ),
    (classify_stress_level s m = "High" ∨ classify_stress_level s m = "Medium" ∨
      classify_stress_level s m = "Low") ∧
    classify_stress_level s 0 = "High" ∧
    (classify_stress_level s 11 = "Low" ↔ 0 ≤ s) := by
  intro s m
  refine ⟨?_, ?_, ?_⟩
  · unfold classify_stress_level
    split_ifs <;> simp
  · exact (classify_eq_high_iff s 0).mpr (Or.inr (by omega))
  · exact (classify_eq_low_iff s 11).trans (and_iff_left (by omega))

/-- C4 counterexample: on the empty string the sentiment scorer returns the
full neutral score dict, not the scalar 0.0 the claim states. -/
theorem analyze_sentiment_empty_cex :
    analyze_sentiment vaderZero "" ≠ SentimentResult.scalar 0 := by
  decide

/-- C4 (amended): for empty text `analyze_sentiment` returns the VADER-style
neutral score mapping (neg 0.0, neu 1.0, pos 0.0, compound 0.0) rather than
the scalar; every non-empty text — including whitespace-only text, which the
falsy-text guard does not catch — is handed to the external analyzer and
yields its scalar compound score. No error is raised either way. -/
theorem analyze_sentiment_cases : ∀ (vader : String → ℚ) (text : String),
    analyze_sentiment vader "" = SentimentResult.scores 0 1 0 0 ∧
    (text ≠ "" → analyze_sentiment vader text = SentimentResult.scalar (vader text)) := by
  intro vader text
  constructor
  · simp [analyze_sentiment]
  · intro h
    simp [analyze_sentiment, h]

/-- Witness for C4 at the neutral oracle and the one-letter text "a". -/
theorem analyze_sentiment_cases_witness :
    analyze_sentiment vaderZero "" = SentimentResult.scores 0 1 0 0 ∧
    analyze_sentiment vaderZero " " = SentimentResult.scalar (vaderZero " ") :=
  ⟨(analyze_sentiment_cases vaderZero " ").1,
   (analyze_sentiment_cases vaderZero " ").2 (by decide)⟩

/-- C2 (code bug): when the external generation call raises, the except
handler calls `generate_suggestions_rule_based`, a name defined nowhere in
the module, so the handler itself raises NameError and the failure
propagates to the caller instead of degrading to the rule-based output;
and when the call returns an empty generated text, the function returns
the empty list, not the deterministic fallback and not a non-empty list. -/
theorem generate_suggestions_with_model_failure :
    ∀ (c : ℚ) (l t : String) (h : List EntryRow),
    generate_suggestions_with_model genFail c l t h =
      Except.error (PyErr.nameError "generate_suggestions_rule_based") ∧
    generate_suggestions_with_model genEmpty c l t h = Except.ok [] :=
  fun _ _ _ _ => ⟨rfl, rfl⟩

/-- C5 counterexample: on the single-line response "* hi" (non-blank, first
non-space character not alphanumeric, length 4) the source keeps nothing —
its real filter is `line.strip() and len(line) > 5` — while the claimed
heuristic keeps the line. -/
theorem model_line_filter_cex :
    generate_suggestions_with_model genStar 0 "Low" "" [] = Except.ok [] ∧
    specLineFilter "* hi" = ["* hi"] ∧
    generate_suggestions_with_model genStar 0 "Low" "" [] ≠
      Except.ok (specLineFilter "* hi") := by
  refine ⟨rfl, by decide, fun h => ?_⟩
  rw [show specLineFilter "* hi" = ["* hi"] from by decide] at h
  exact absurd (Except.ok.inj h) (by decide)

/-- C5 (amended): on a successful generation the kept suggestions are
exactly the lines of the stripped response that are non-blank and strictly
longer than 5 characters; there is no first-character heuristic and no
keep-every-non-empty-line fallback. -/
theorem model_line_filter_membership :
    ∀ (g : String) (c : ℚ) (l t : String) (h : List EntryRow),
    ∃ kept,
      generate_suggestions_with_model (fun _ _ _ _ => Except.ok g) c l t h =
        Except.ok kept ∧
      ∀ line, line ∈ kept ↔
        (line ∈ pySplitLines (pyStrip g) ∧ pyStrip line ≠ "" ∧ 5 < line.length) := by
  intro g c l t h
  refine ⟨_, rfl, ?_⟩
  intro line
  simp [List.mem_filter, decide_eq_true_iff]

/-- Helper: every trend alert is the Decline or the ChronicStress message. -/
lemma mem_trend_suggestions {s : String} {h : List EntryRow}
    (hm : s ∈ trend_suggestions h) : s = declineMsg ∨ s = chronicMsg := by
  simp only [trend_suggestions] at hm
  split_ifs at hm <;> simp_all

/-- Helper: the emitted trend alerts are pairwise distinct. -/
lemma trend_suggestions_nodup (h : List EntryRow) : (trend_suggestions h).Nodup := by
  simp only [trend_suggestions]
  split_ifs <;> simp [declineMsg, chronicMsg]

/-- Helper: no current-entry message coincides with the Decline alert. -/
lemma current_suggestion_ne_decline (c : ℚ) (l : String) :
    current_suggestion c l ≠ declineMsg := by
  unfold current_suggestion
  split_ifs <;> decide

/-- Helper: no current-entry message coincides with the ChronicStress alert. -/
lemma current_suggestion_ne_chronic (c : ℚ) (l : String) :
    current_suggestion c l ≠ chronicMsg := by
  unfold current_suggestion
  split_ifs <;> decide

/-- Helper: the pre-dedup suggestion list never contains a duplicate. -/
lemma generate_suggestions_pre_nodup (c : ℚ) (l : String) (h : List EntryRow) :
    (generate_suggestions_pre c l h).Nodup := by
  unfold generate_suggestions_pre
  refine List.nodup_cons.mpr ⟨fun hm => ?_, trend_suggestions_nodup h⟩
  rcases mem_trend_suggestions hm with he | he
  · exact current_suggestion_ne_decline c l he
  · exact current_suggestion_ne_chronic c l he

/-- Helper: a duplicate-free list is a valid `list(set(...))` image of itself. -/
lemma pySetList_refl (l : List String) (h : l.Nodup) : pySetList l l :=
  ⟨h, fun _ hs => hs, fun _ hs => hs⟩

/-- Helper: for a history of at least 7 entries the ChronicStress alert is in
the trend output exactly when the High count strictly exceeds 0.3 times the
length. -/
lemma chronic_mem_trend_iff (h : List EntryRow) (h7 : 7 ≤ h.length) :
    chronicMsg ∈ trend_suggestions h ↔
      (((h.filter fun r => r.stress == "High").length : ℚ) > (h.length : ℚ) * 0.3) := by
  have hne : h ≠ [] := by rintro rfl; simp at h7
  simp only [trend_suggestions]
  rw [if_pos ⟨hne, h7⟩]
  by_cases hc : (((h.filter fun r => r.stress == "High").length : ℚ) > (h.length : ℚ) * 0.3)
  · rw [if_pos hc]
    exact iff_of_true (List.mem_append.mpr (Or.inr (by simp))) hc
  · rw [if_neg hc]
    refine iff_of_false (fun hm => ?_) hc
    rw [List.append_nil] at hm
    split_ifs at hm
    · exact absurd (by simpa using hm) (by decide : ¬chronicMsg = declineMsg)
    · simp at hm

/-- Helper: trend output on the all-High 10-entry history is exactly the
ChronicStress alert. -/
lemma trend_hist10High : trend_suggestions hist10High = [chronicMsg] := by
  simp [trend_suggestions, hist10High, listMean]
  norm_num

/-- Helper: the pre-dedup list on the all-High 10-entry history. -/
lemma pre_hist10High : generate_suggestions_pre 0 "High" hist10High =
    [current_suggestion 0 "High", chronicMsg] := by
  unfold generate_suggestions_pre
  rw [trend_hist10High]

/-- C3 counterexample: on a concrete input whose pre-dedup sequence is
[current-entry message, ChronicStress message], the reversed list is also a
valid value of `list(set(suggestions))`, so the engine does not guarantee
the claimed first-occurrence order. -/
theorem generate_suggestions_order_cex :
    generate_suggestions_result 0 "High" hist10High
      [chronicMsg, current_suggestion 0 "High"] ∧
    [chronicMsg, current_suggestion 0 "High"] ≠
      generate_suggestions_pre 0 "High" hist10High := by
  constructor
  · unfold generate_suggestions_result
    rw [pre_hist10High]
    refine ⟨?_, ?_, ?_⟩
    · simp only [List.nodup_cons, List.mem_singleton, List.not_mem_nil,
        not_false_iff, List.nodup_nil, and_true]
      exact fun e => current_suggestion_ne_chronic 0 "High" e.symm
    · intro s hs
      simp only [List.mem_cons, List.mem_singleton] at hs ⊢
      tauto
    · intro s hs
      simp only [List.mem_cons, List.mem_singleton] at hs ⊢
      tauto
  · rw [pre_hist10High]
    intro h
    injection h with h1 h2
    exact current_suggestion_ne_chronic 0 "High" h1.symm

/-- C3 (amended): every possible return value of the rule-based engine is
duplicate free and is a permutation of the first-occurrence sequence (the
current-entry suggestion followed by the trend alerts, Decline before
ChronicStress); because the source deduplicates with plain `list(set(...))`,
the order of the returned list is unspecified. -/
theorem generate_suggestions_dedup_perm :
    ∀ (c : ℚ) (l : String) (h : List EntryRow) (out : List String),
    generate_suggestions_result c l h out →
    out.Nodup ∧ out.Perm (generate_suggestions_pre c l h) := by
  intro c l h out hres
  obtain ⟨hnd, h1, h2⟩ := hres
  exact ⟨hnd, (List.perm_ext_iff_of_nodup hnd (generate_suggestions_pre_nodup c l h)).mpr
    fun a => ⟨fun ha => h1 a ha, fun ha => h2 a ha⟩⟩

/-- Witness for C3 at a concrete duplicate-free output. -/
theorem generate_suggestions_dedup_perm_witness :
    (generate_suggestions_pre 0 "Low" []).Nodup ∧
    (generate_suggestions_pre 0 "Low" []).Perm (generate_suggestions_pre 0 "Low" []) :=
  generate_suggestions_dedup_perm 0 "Low" [] _
    (pySetList_refl _ (generate_suggestions_pre_nodup 0 "Low" []))

/-- C6: for every history of fewer than 7 entries, regardless of content,
no trend alert is emitted: every possible return value of the rule-based
engine is exactly the singleton current-entry suggestion. -/
theorem short_history_single_suggestion :
    ∀ (c : ℚ) (l : String) (h : List EntryRow) (out : List String),
    h.length < 7 → generate_suggestions_result c l h out →
    out = [current_suggestion c l] := by
  intro c l h out h7 hres
  obtain ⟨hnd, h1, h2⟩ := hres
  have htr : trend_suggestions h = [] := by
    simp only [trend_suggestions]
    rw [if_neg]
    rintro ⟨-, hge⟩
    omega
  simp only [generate_suggestions_pre, htr] at h1 h2
  have hc : current_suggestion c l ∈ out := h2 _ (by simp)
  cases out with
  | nil => cases hc
  | cons a t =>
    have ha : a = current_suggestion c l := by
      have := h1 a (by simp)
      simpa using this
    cases t with
    | nil => rw [ha]
    | cons b u =>
      have hb : b = current_suggestion c l := by
        have := h1 b (by simp)
        simpa using this
      rw [List.nodup_cons] at hnd
      exact absurd (by rw [ha, hb]; exact List.mem_cons_self _ _) hnd.1

/-- Witness for C6 at a single-entry history. -/
theorem short_history_single_suggestion_witness :
    ["🛑 **Immediate Focus: Stress Reduction.** Try taking 10 deep breaths, stepping away from your task for 5 minutes, or listening to a calming playlist."] =
      [current_suggestion 0 "High"] :=
  short_history_single_suggestion 0 "High" [⟨5, 0, "High"⟩] _ (by decide) (by decide)

/-- C7: for every history of at least 7 entries, every possible return value
of the rule-based engine contains the ChronicStress alert exactly when the
count of High-labelled entries strictly exceeds 0.3 times the entry count. -/
theorem chronic_alert_iff :
    ∀ (c : ℚ) (l : String) (h : List EntryRow) (out : List String),
    7 ≤ h.length → generate_suggestions_result c l h out →
    (chronicMsg ∈ out ↔
      (((h.filter fun r => r.stress == "High").length : ℚ) > (h.length : ℚ) * 0.3)) := by
  intro c l h out h7 hres
  obtain ⟨hnd, h1, h2⟩ := hres
  have hmem : chronicMsg ∈ out ↔ chronicMsg ∈ generate_suggestions_pre c l h :=
    ⟨fun ha => h1 _ ha, fun ha => h2 _ ha⟩
  rw [hmem]
  unfold generate_suggestions_pre
  rw [List.mem_cons, or_iff_right fun e => current_suggestion_ne_chronic c l e.symm]
  exact chronic_mem_trend_iff h h7

/-- Witness for C7: with 4 of 10 entries High the alert fires; with exactly
3 of 10 it does not. -/
theorem chronic_alert_iff_witness :
    chronicMsg ∈ generate_suggestions_pre 0 "Low" hist4of10 ∧
    chronicMsg ∉ generate_suggestions_pre 0 "Low" hist3of10 := by
  constructor
  · exact (chronic_alert_iff 0 "Low" hist4of10 _ (by norm_num [hist4of10])
      (pySetList_refl _ (generate_suggestions_pre_nodup 0 "Low" hist4of10))).mpr
      (by simp [hist4of10]; norm_num)
  · intro hm
    exact absurd ((chronic_alert_iff 0 "Low" hist3of10 _ (by norm_num [hist3of10])
      (pySetList_refl _ (generate_suggestions_pre_nodup 0 "Low" hist3of10))).mp hm)
      (by simp [hist3of10]; norm_num)

/-- C8: in the save flow, the suggestion computation always receives the
history read from the store before the new entry is persisted: for every
store state, the suggestions component of the submit flow equals the
generative engine applied to `get_user_entries_df` of the unmodified input
store — it does not depend on the entry date or on whether the subsequent
commit succeeds. -/
theorem run_app_submit_uses_presave_history :
    ∀ (vader : String → ℚ)
      (generate : ℚ → String → String → List EntryRow → Except Unit String)
      (commitOk : Bool) (store : List StoredEntry) (user_id entry_date : ℤ)
      (journal_text : String) (mood_rating : ℤ),
    pyStrip journal_text ≠ "" →
    Option.map (fun r => r.1)
        (run_app_submit vader generate commitOk store user_id entry_date
          journal_text mood_rating) =
      some (generate_suggestions_with_model generate (vader journal_text)
        (classify_stress_level (vader journal_text) mood_rating)
        journal_text (get_user_entries_df store user_id)) := by
  intro vader generate commitOk store user_id entry_date journal_text mood_rating hts
  have htext : journal_text ≠ "" := by
    rintro rfl
    exact hts rfl
  have hsent : analyze_sentiment vader journal_text =
      SentimentResult.scalar (vader journal_text) := by
    simp [analyze_sentiment, htext]
  unfold run_app_submit
  rw [if_neg hts, hsent]
  dsimp only
  cases hg : generate_suggestions_with_model generate (vader journal_text)
      (classify_stress_level (vader journal_text) mood_rating)
      journal_text (get_user_entries_df store user_id) with
  | error e => rfl
  | ok suggestions => rfl

/-- Witness for C8 at a concrete run with non-blank text. -/
theorem run_app_submit_uses_presave_history_witness :
    Option.map (fun r => r.1) (run_app_submit vaderZero genEmpty true [] 1 0 "hi" 5) =
      some (generate_suggestions_with_model genEmpty (vaderZero "hi")
        (classify_stress_level (vaderZero "hi") 5) "hi" (get_user_entries_df [] 1)) :=
  run_app_submit_uses_presave_history vaderZero genEmpty true [] 1 0 "hi" 5 (by decide)

/-- C9: the save operation always reports its outcome as a boolean — it
returns `True` exactly when the commit succeeded (and then the entry is
appended to the store), and on a store failure (duplicate-date conflict,
connectivity loss) it returns `False` with the session rolled back to the
pre-call state instead of raising. -/
theorem save_journal_entry_outcome :
    ∀ (commitOk : Bool) (st : List StoredEntry) (e : StoredEntry),
    (save_journal_entry commitOk st e).1 = commitOk ∧
    ((save_journal_entry commitOk st e).1 = true →
      (save_journal_entry commitOk st e).2 = st ++ [e]) ∧
    ((save_journal_entry commitOk st e).1 = false →
      (save_journal_entry commitOk st e).2 = st) := by
  intro commitOk st e
  cases commitOk <;> simp [save_journal_entry]

/-- Witness for C9 at a successful and at a failing commit. -/
theorem save_journal_entry_outcome_witness :
    (save_journal_entry true [] sampleEntry).2 = [] ++ [sampleEntry] ∧
    (save_journal_entry false [] sampleEntry).2 = ([] : List StoredEntry) :=
  ⟨(save_journal_entry_outcome true [] sampleEntry).2.1
      ((save_journal_entry_outcome true [] sampleEntry).1),
   (save_journal_entry_outcome false [] sampleEntry).2.2
      ((save_journal_entry_outcome false [] sampleEntry).1)⟩

end MoodPlus
